import Mathlib

/-!
Verification of the two scripts in `script/` against their specification.

`script/extract_pdf.py` (full-extract mode) opens `nn.pdf`, writes a page
count header and one block per page to `nn_extracted.txt`, then prints a
completion message. `script/read_pdf.py` (preview mode) reconfigures
standard output to UTF-8 and prints the same header and the blocks of the
first `min(10, N)` pages.

The PDF library is modelled by what the scripts observe of it: a parsed
document is the list of its pages, each page recorded by the string its
`extract_text()` call returns, with `none` standing for a call that raises.
Runs are modelled as pure functions from that document (or `none` when the
input file cannot be opened) to the observable outcome: file content,
standard-output stream, error.
-/

namespace PDFDump

/-- Text-stream encodings: the explicitly requested UTF-8, or some platform
default encoding a stream starts with. -/
inductive Encoding
  | utf8
  | platform (name : String)
  deriving DecidableEq

/-- Errors a run can abort with: an `open` call failing (missing file,
permission), or a page's `extract_text()` raising. -/
inductive RunError
  | fileAccess
  | pageExtraction
  deriving DecidableEq

/-- Parsed document as the scripts see it through the PDF library: the list
of its pages, each recorded by what `page.extract_text()` returns, `none`
standing for an extraction call that raises instead of returning. -/
abbrev Document := List (Option String)

/-- Separator line used by both scripts: 60 equals signs. -/
def sep : String := String.mk (List.replicate 60 '=')

/-- Python `print`: writes its argument followed by a newline. -/
def pyPrint (s : String) : String := s ++ "\n"

/-- Concatenation of a list of written chunks, in order. -/
def concatAll : List String → String
  | [] => ""
  | s :: rest => s ++ concatAll rest

/-- Page loop of `extract_pdf.py` (lines 11-17) started at 0-based page
index `i`. Each iteration writes the three banner pieces first, then
extracts the page's text; when extraction raises, the run stops with what
was already written. Returns the text the loop wrote and whether it ran to
completion. -/
def extractLoop : List (Option String) → Nat → String × Bool
  | [], _ => ("", true)
  | p :: rest, i =>
    let w1 := "\n" ++ sep ++ "\n"
    let w2 := "페이지 " ++ toString (i + 1) ++ "\n"
    let w3 := sep ++ "\n\n"
    match p with
    | none => (w1 ++ w2 ++ w3, false)
    | some text =>
      let r := extractLoop rest (i + 1)
      (w1 ++ w2 ++ w3 ++ (text ++ "\n" ++ r.1), r.2)

/-- Observable outcome of one run of `extract_pdf.py`: the state of
`nn_extracted.txt` with its encoding (`none` when the file was never
created), what was printed to standard output, and the error the run
aborted with, if any. -/
structure ExtractResult where
  outFile : Option (Encoding × String)
  stdout : String
  err : Option RunError
  deriving DecidableEq

/-- Header line plus blank line written for page count `n` (the f-string of
`extract_pdf.py` line 8). -/
def fullHeader (n : Nat) : String := "총 페이지 수: " ++ toString n ++ "\n\n"

/-- Full run of `extract_pdf.py`. `input` is `none` when `nn.pdf` cannot be
opened (that first `open` raises before the output path is touched);
otherwise it is the parsed document. The output file is opened with
explicit `encoding='utf-8'` (line 7). The completion message (line 19) is
printed only when the whole with-block succeeded. -/
def extract_pdf_run (input : Option Document) : ExtractResult :=
  match input with
  | none => { outFile := none, stdout := "", err := some RunError.fileAccess }
  | some pages =>
    let total_pages := pages.length
    let r := extractLoop pages 0
    { outFile := some (Encoding.utf8, fullHeader total_pages ++ r.1)
      stdout :=
        if r.2 then pyPrint ("추출 완료! 총 " ++ toString total_pages ++ " 페이지") else ""
      err := if r.2 then none else some RunError.pageExtraction }

/-- Content of the output file after a run, without its encoding tag;
`none` when the file was never created. -/
def extract_file_content (input : Option Document) : Option String :=
  (extract_pdf_run input).outFile.map Prod.snd

/-- Page loop of `read_pdf.py` (lines 12-17) started at 0-based index `i`:
the same banner and text as `extractLoop`, as the four per-page `print`
calls, collected as separate write chunks. -/
def readLoopW : List (Option String) → Nat → List String × Bool
  | [], _ => ([], true)
  | p :: rest, i =>
    let w1 := pyPrint ("\n" ++ sep)
    let w2 := pyPrint ("페이지 " ++ toString (i + 1))
    let w3 := pyPrint (sep ++ "\n")
    match p with
    | none => ([w1, w2, w3], false)
    | some text =>
      let r := readLoopW rest (i + 1)
      (w1 :: w2 :: w3 :: pyPrint text :: r.1, r.2)

/-- Observable outcome of one run of `read_pdf.py`: the standard-output
write events, each tagged with the stream encoding in force when it was
written, and the error the run aborted with, if any. -/
structure ReadResult where
  stdout : List (Encoding × String)
  err : Option RunError
  deriving DecidableEq

/-- Full run of `read_pdf.py`. `sys.stdout` starts with the platform
default encoding; line 5 reconfigures it to UTF-8 before anything is
printed. The loop covers indices below `min(10, page count)`, that is the
first ten pages. -/
def read_pdf_run (platformDefault : Encoding) (input : Option Document) : ReadResult :=
  let _stdoutEnc0 := platformDefault
  let stdoutEnc := Encoding.utf8
  match input with
  | none => { stdout := [], err := some RunError.fileAccess }
  | some pages =>
    let hdr := pyPrint ("총 페이지 수: " ++ toString pages.length ++ "\n")
    let r := readLoopW (pages.take 10) 0
    { stdout := (hdr :: r.1).map (fun s => (stdoutEnc, s))
      err := if r.2 then none else some RunError.pageExtraction }

/-- Flat character stream preview mode sends to standard output. -/
def read_pdf_stdout (platformDefault : Encoding) (input : Option Document) : String :=
  concatAll (((read_pdf_run platformDefault input).stdout).map Prod.snd)

/-- State of `nn_extracted.txt` on disk after a run of `extract_pdf.py`
starting from prior state `prev`: `open(..., 'w')` creates or truncates the
file, but when opening `nn.pdf` fails first the output path is never
touched. -/
def fileAfterRun (prev : Option String) (input : Option Document) : Option String :=
  match (extract_pdf_run input).outFile with
  | some f => some f.2
  | none => prev

/-- One full page block as `extract_pdf.py` writes it for 1-based page
number `k`: the writes of one completed loop iteration, in order. Note the
leading newline before the first separator. -/
def pageBlock (k : Nat) (text : String) : String :=
  "\n" ++ sep ++ "\n" ++ ("페이지 " ++ toString k ++ "\n") ++ (sep ++ "\n\n") ++ text ++ "\n"

/-- The banner alone (the three writes preceding extraction) for 1-based
page number `k`: what remains of a block when extracting that page raises. -/
def bannerOnly (k : Nat) : String :=
  "\n" ++ sep ++ "\n" ++ ("페이지 " ++ toString k ++ "\n") ++ (sep ++ "\n\n")

/-- Page blocks for consecutive pages, the first having 0-based index `k`. -/
def blockListFrom (k : Nat) : List String → List String
  | [] => []
  | t :: ts => pageBlock (k + 1) t :: blockListFrom (k + 1) ts

/-- Page blocks of a document in page order, labels 1-based. -/
def blockList (texts : List String) : List String := blockListFrom 0 texts

/-- Page block exactly as claim C3 words it (spec section 6): separator
line, label line, separator line, blank line, extracted text, trailing
newline — with no leading blank line. Written for comparison with
`pageBlock`; not derived from the source. -/
def claimedPageBlock (k : Nat) (text : String) : String :=
  sep ++ "\n" ++ ("Page " ++ toString k ++ "\n") ++ (sep ++ "\n\n") ++ text ++ "\n"

/-- Blocks of `claimedPageBlock` for consecutive pages, the first having
0-based index `k`. -/
def claimedBlocksFrom (k : Nat) : List String → List String
  | [] => []
  | t :: ts => claimedPageBlock (k + 1) t :: claimedBlocksFrom (k + 1) ts

/-- Full-extract output exactly as claim C3 states its structure: header
line, blank line, then the claimed page blocks. Written for comparison
with the output the source produces; not derived from the source. -/
def claimedFullExtract (texts : List String) : String :=
  "Total page count: " ++ toString texts.length ++ "\n\n" ++
    concatAll (claimedBlocksFrom 0 texts)

/-! Helper lemmas relating the loops to the block decomposition. -/

theorem pageBlock_as_writes (k : Nat) (text : String) :
    pageBlock k text =
      ("\n" ++ sep ++ "\n") ++ (("페이지 " ++ toString k ++ "\n") ++ ((sep ++ "\n\n") ++ (text ++ "\n"))) := by
  simp [pageBlock, String.append_assoc]

theorem extractLoop_all_some (texts : List String) (i : Nat) :
    extractLoop (texts.map some) i = (concatAll (blockListFrom i texts), true) := by
  induction texts generalizing i with
  | nil => rfl
  | cons t ts ih =>
    simp [extractLoop, blockListFrom, concatAll, ih, pageBlock_as_writes, String.append_assoc]

theorem readLoopW_concat (pages : List (Option String)) (i : Nat) :
    concatAll (readLoopW pages i).1 = (extractLoop pages i).1
    ∧ (readLoopW pages i).2 = (extractLoop pages i).2 := by
  induction pages generalizing i with
  | nil => exact ⟨rfl, rfl⟩
  | cons p ps ih =>
    cases p with
    | none =>
      refine ⟨?_, rfl⟩
      simp [readLoopW, extractLoop, concatAll, pyPrint, String.append_assoc, String.append_empty]
    | some t =>
      refine ⟨?_, (ih (i + 1)).2⟩
      simp [readLoopW, extractLoop, concatAll, pyPrint, (ih (i + 1)).1, String.append_assoc]

theorem extractLoop_take (pages : List (Option String)) (n i : Nat) :
    ∃ t, (extractLoop pages i).1 = (extractLoop (pages.take n) i).1 ++ t := by
  induction pages generalizing n i with
  | nil =>
    refine ⟨"", ?_⟩
    cases n <;> simp [extractLoop, String.append_empty]
  | cons p ps ih =>
    cases n with
    | zero => exact ⟨(extractLoop (p :: ps) i).1, by simp [extractLoop, String.empty_append]⟩
    | succ m =>
      cases p with
      | none => exact ⟨"", by simp [extractLoop, String.append_empty]⟩
      | some t =>
        obtain ⟨u, hu⟩ := ih m (i + 1)
        exact ⟨u, by simp [extractLoop, hu, String.append_assoc]⟩

theorem extractLoop_fail (texts : List String) (rest : List (Option String)) (i : Nat) :
    extractLoop (texts.map some ++ none :: rest) i =
      (concatAll (blockListFrom i texts) ++ bannerOnly (i + texts.length + 1), false) := by
  induction texts generalizing i with
  | nil => simp [extractLoop, blockListFrom, concatAll, bannerOnly, String.empty_append, String.append_assoc]
  | cons t ts ih =>
    have harith : i + 1 + ts.length + 1 = i + (ts.length + 1) + 1 := by omega
    simp [extractLoop, blockListFrom, concatAll, ih, pageBlock_as_writes, bannerOnly,
      harith, String.append_assoc]

theorem blockListFrom_length (texts : List String) (k : Nat) :
    (blockListFrom k texts).length = texts.length := by
  induction texts generalizing k with
  | nil => rfl
  | cons t ts ih => simp [blockListFrom, ih]

theorem blockListFrom_get (texts : List String) (k i : Nat) (h : i < texts.length) :
    (blockListFrom k texts)[i]? = some (pageBlock (k + i + 1) (texts.getD i "")) := by
  induction texts generalizing k i with
  | nil => simp at h
  | cons t ts ih =>
    cases i with
    | zero => simp [blockListFrom, List.getD]
    | succ j =>
      have h' : j < ts.length := by simpa using h
      have harith : k + 1 + j + 1 = k + (j + 1) + 1 := by omega
      simpa [blockListFrom, List.getD, harith] using ih (k + 1) j h'

theorem read_stdout_eq (d : Encoding) (pages : Document) :
    read_pdf_stdout d (some pages) =
      fullHeader pages.length ++ (extractLoop (pages.take 10) 0).1 := by
  have hnl : ∀ s : String, s ++ "\n" ++ "\n" = s ++ "\n\n" := by
    intro s
    rw [String.append_assoc]
    congr 1
  simp [read_pdf_stdout, read_pdf_run, concatAll, fullHeader, pyPrint,
    (readLoopW_concat (pages.take 10) 0).1, List.map_map, Function.comp, hnl,
    String.append_assoc]

theorem pageBlock_empty (k : Nat) : pageBlock k "" = bannerOnly k ++ "\n" := by
  simp [pageBlock, bannerOnly, String.append_assoc, String.empty_append]

theorem take_getD (l : List String) (n i : Nat) (h : i < n) :
    (l.take n).getD i "" = l.getD i "" := by
  induction l generalizing n i with
  | nil => simp
  | cons t ts ih =>
    cases n with
    | zero => omega
    | succ m =>
      cases i with
      | zero => simp [List.getD]
      | succ j =>
        have h' : j < m := by omega
        simpa [List.getD] using ih m j h'

theorem map_some_take (texts : List String) (n : Nat) :
    (texts.map some).take n = (texts.take n).map some := by
  simp [List.map_take]

theorem extract_file_all_some (texts : List String) :
    extract_file_content (some (texts.map some)) =
      some (fullHeader texts.length ++ concatAll (blockList texts)) := by
  simp [extract_file_content, extract_pdf_run, extractLoop_all_some, blockList]

theorem read_stdout_all_some (d : Encoding) (texts : List String) :
    read_pdf_stdout d (some (texts.map some)) =
      fullHeader texts.length ++ concatAll (blockList (texts.take 10)) := by
  rw [read_stdout_eq, map_some_take, extractLoop_all_some]
  simp [blockList]

/-! Claim theorems. -/

/-- C1: for every valid N-page document, full-extract mode writes exactly N
page blocks after the header, in page order; the block at 0-based index i
is labeled with the 1-based number i+1; and the blocks preview mode emits
carry the same 1-based labels. -/
theorem C1_page_blocks_one_based (texts : List String) :
    (extract_file_content (some (texts.map some)) =
      some (fullHeader texts.length ++ concatAll (blockList texts)))
    ∧ (blockList texts).length = texts.length
    ∧ (∀ i, i < texts.length →
        (blockList texts)[i]? = some (pageBlock (i + 1) (texts.getD i "")))
    ∧ (∀ d : Encoding, read_pdf_stdout d (some (texts.map some)) =
        fullHeader texts.length ++ concatAll (blockList (texts.take 10)))
    ∧ (∀ i, i < (texts.take 10).length →
        (blockList (texts.take 10))[i]? =
          some (pageBlock (i + 1) ((texts.take 10).getD i ""))) := by
  refine ⟨extract_file_all_some texts, blockListFrom_length texts 0, ?_, ?_, ?_⟩
  · intro i h
    simpa [blockList, Nat.zero_add] using blockListFrom_get texts 0 i h
  · intro d
    exact read_stdout_all_some d texts
  · intro i h
    simpa [blockList, Nat.zero_add] using blockListFrom_get (texts.take 10) 0 i h

theorem C1_page_blocks_one_based_witness :
    (1 < 2 ∧ (blockList ["a", "b"])[1]? = some (pageBlock 2 "b")) :=
  ⟨by decide, (C1_page_blocks_one_based ["a", "b"]).2.2.1 1 (by decide)⟩

/-- C2: preview mode emits exactly min(10, N) page blocks: exactly N
blocks when N < 10 and exactly 10 blocks when N ≥ 10. -/
theorem C2_preview_block_count (d : Encoding) (texts : List String) :
    (read_pdf_stdout d (some (texts.map some)) =
      fullHeader texts.length ++ concatAll (blockList (texts.take 10)))
    ∧ (blockList (texts.take 10)).length = min 10 texts.length
    ∧ (texts.length < 10 → (blockList (texts.take 10)).length = texts.length)
    ∧ (10 ≤ texts.length → (blockList (texts.take 10)).length = 10) := by
  have hlen : (blockList (texts.take 10)).length = min 10 texts.length := by
    rw [blockList, blockListFrom_length, List.length_take]
  refine ⟨read_stdout_all_some d texts, hlen, ?_, ?_⟩
  · intro h
    rw [hlen]
    omega
  · intro h
    rw [hlen]
    omega

theorem C2_preview_block_count_witness :
    ((List.replicate 3 "x").length < 10
      ∧ (blockList ((List.replicate 3 "x").take 10)).length = (List.replicate 3 "x").length)
    ∧ (10 ≤ (List.replicate 12 "x").length
      ∧ (blockList ((List.replicate 12 "x").take 10)).length = 10) :=
  ⟨⟨by decide, (C2_preview_block_count Encoding.utf8 (List.replicate 3 "x")).2.2.1 (by decide)⟩,
    ⟨by decide, (C2_preview_block_count Encoding.utf8 (List.replicate 12 "x")).2.2.2 (by decide)⟩⟩

/-- C3 counterexample: already for a one-page document whose page extracts
to "t", the file content extract_pdf.py produces differs from the structure
claim C3 states: the header line is the Korean one and an extra blank line
precedes each block's first separator. -/
theorem C3_structure_counterexample :
    extract_file_content (some [some "t"]) ≠ some (claimedFullExtract ["t"]) := by
  decide

/-- C3 amended: the full-extract output is the header line (the source's
native-language page-count line), a blank line, then for each page a block
that starts with one extra blank line before its first separator:
newline, separator, label line, separator, blank line, extracted text,
trailing newline, with separator = 60 equals signs and labels 1-based. -/
theorem C3_structure_amended (texts : List String) :
    extract_file_content (some (texts.map some)) =
      some (("총 페이지 수: " ++ toString texts.length ++ "\n\n") ++
        concatAll (blockListFrom 0 texts)) := by
  simpa [fullHeader, blockList] using extract_file_all_some texts

/-- C4: a page extracting to the empty string is not an error; its block is
still the full banner plus the trailing newline, with an empty text region,
in full-extract mode and, for pages below index 10, in preview mode too. -/
theorem C4_empty_text_page (texts : List String) (i : Nat)
    (h : i < texts.length) (he : texts.getD i "" = "") :
    (extract_pdf_run (some (texts.map some))).err = none
    ∧ (extract_file_content (some (texts.map some)) =
        some (fullHeader texts.length ++ concatAll (blockList texts)))
    ∧ (blockList texts)[i]? = some (bannerOnly (i + 1) ++ "\n")
    ∧ (∀ d : Encoding, read_pdf_stdout d (some (texts.map some)) =
        fullHeader texts.length ++ concatAll (blockList (texts.take 10)))
    ∧ (i < 10 → (blockList (texts.take 10))[i]? = some (bannerOnly (i + 1) ++ "\n")) := by
  refine ⟨?_, extract_file_all_some texts, ?_, fun d => read_stdout_all_some d texts, ?_⟩
  · simp [extract_pdf_run, extractLoop_all_some]
  · have := blockListFrom_get texts 0 i h
    rw [he, pageBlock_empty] at this
    simpa [blockList, Nat.zero_add] using this
  · intro h10
    have hlen : i < (texts.take 10).length := by
      rw [List.length_take]
      omega
    have := blockListFrom_get (texts.take 10) 0 i hlen
    rw [take_getD texts 10 i h10, he, pageBlock_empty] at this
    simpa [blockList, Nat.zero_add] using this

theorem C4_empty_text_page_witness :
    (1 < ["a", "", "c"].length ∧ ["a", "", "c"].getD 1 "" = "")
    ∧ (extract_pdf_run (some (["a", "", "c"].map some))).err = none
    ∧ (blockList ["a", "", "c"])[1]? = some (bannerOnly 2 ++ "\n") :=
  ⟨⟨by decide, by decide⟩,
    (C4_empty_text_page ["a", "", "c"] 1 (by decide) (by decide)).1,
    (C4_empty_text_page ["a", "", "c"] 1 (by decide) (by decide)).2.2.1⟩

/-- C5: when the input file cannot be opened, both modes abort with a
FileAccessError, the output file is neither created nor truncated, and
preview mode has written nothing to standard output. -/
theorem C5_missing_input :
    (extract_pdf_run none).err = some RunError.fileAccess
    ∧ (extract_pdf_run none).outFile = none
    ∧ (∀ prev, fileAfterRun prev none = prev)
    ∧ (∀ d : Encoding, (read_pdf_run d none).err = some RunError.fileAccess
        ∧ (read_pdf_run d none).stdout = []) :=
  ⟨rfl, rfl, fun _ => rfl, fun _ => ⟨rfl, rfl⟩⟩

/-- C6: extraction results being fixed by the document (determinism),
running full-extract mode twice on the same input leaves the output file
with the same byte content as running it once: the second run overwrites
the first run's file with identical content, which it always creates. -/
theorem C6_full_extract_idempotent (prev : Option String) (pages : Document) :
    fileAfterRun (fileAfterRun prev (some pages)) (some pages) = fileAfterRun prev (some pages)
    ∧ ∃ c, fileAfterRun prev (some pages) = some c :=
  ⟨rfl, ⟨_, rfl⟩⟩

/-- C7: after processing all pages successfully, full-extract mode prints a
completion message carrying the total page count N to standard output,
while preview mode's stream ends right after its last page block, with no
completion summary. -/
theorem C7_completion_message (texts : List String) (d : Encoding) :
    (extract_pdf_run (some (texts.map some))).stdout =
      "추출 완료! 총 " ++ toString texts.length ++ " 페이지" ++ "\n"
    ∧ read_pdf_stdout d (some (texts.map some)) =
      fullHeader texts.length ++ concatAll (blockList (texts.take 10)) := by
  refine ⟨?_, read_stdout_all_some d texts⟩
  simp [extract_pdf_run, extractLoop_all_some, pyPrint]

/-- C8: preview mode reconfigures standard output to UTF-8 before any
write, so every write event carries the UTF-8 encoding, and full-extract
mode opens its output file with explicit UTF-8 — both independent of the
platform default encoding. -/
theorem C8_utf8_encoding (d : Encoding) (input : Option Document) :
    (∀ e ∈ (read_pdf_run d input).stdout, e.1 = Encoding.utf8)
    ∧ (∀ enc content, (extract_pdf_run input).outFile = some (enc, content) →
        enc = Encoding.utf8) := by
  constructor
  · intro e he
    cases input with
    | none => simp [read_pdf_run] at he
    | some pages =>
      simp only [read_pdf_run, List.mem_map] at he
      obtain ⟨s, _, rfl⟩ := he
      rfl
  · intro enc content hf
    cases input with
    | none => simp [extract_pdf_run] at hf
    | some pages =>
      simp only [extract_pdf_run, Option.some.injEq, Prod.mk.injEq] at hf
      exact hf.1.symm

theorem C8_utf8_encoding_witness :
    ((Encoding.utf8, pyPrint ("총 페이지 수: " ++ toString 1 ++ "\n")) ∈
        (read_pdf_run (Encoding.platform "cp949") (some [some "a"])).stdout
      ∧ (Encoding.utf8, pyPrint ("총 페이지 수: " ++ toString 1 ++ "\n")).1 = Encoding.utf8)
    ∧ ((extract_pdf_run (some [some "a"])).outFile =
        some (Encoding.utf8, fullHeader 1 ++ (extractLoop [some "a"] 0).1)
      ∧ Encoding.utf8 = Encoding.utf8) := by
  have hm : (Encoding.utf8, pyPrint ("총 페이지 수: " ++ toString 1 ++ "\n")) ∈
      (read_pdf_run (Encoding.platform "cp949") (some [some "a"])).stdout := by
    exact List.mem_cons_self _ _
  have hf : (extract_pdf_run (some [some "a"])).outFile =
      some (Encoding.utf8, fullHeader 1 ++ (extractLoop [some "a"] 0).1) := rfl
  exact ⟨⟨hm, (C8_utf8_encoding (Encoding.platform "cp949") (some [some "a"])).1 _ hm⟩,
    ⟨hf, (C8_utf8_encoding (Encoding.platform "cp949") (some [some "a"])).2 _ _ hf⟩⟩

/-- C9: for the same document, the character stream preview mode emits is
an initial segment of the character content full-extract mode writes to
its output file: the file content is the preview stream followed by the
blocks of the remaining pages. -/
theorem C9_preview_initial_segment (d : Encoding) (pages : Document) :
    ∃ t, extract_file_content (some pages) =
      some (read_pdf_stdout d (some pages) ++ t) := by
  obtain ⟨t, ht⟩ := extractLoop_take pages 10 0
  refine ⟨t, ?_⟩
  rw [read_stdout_eq]
  simp [extract_file_content, extract_pdf_run, ht, String.append_assoc]

/-- C10: in full-extract mode each page's banner is written before its text
is extracted, so when extraction of the page at 0-based index i raises, the
run aborts with the file holding the header with the full page count, the
i complete earlier blocks, and the full banner of page i+1 with nothing
after it; no completion message is printed and nothing is rolled back. -/
theorem C10_banner_before_text (texts : List String) (rest : List (Option String)) :
    (extract_pdf_run (some (texts.map some ++ none :: rest))).err = some RunError.pageExtraction
    ∧ (extract_file_content (some (texts.map some ++ none :: rest)) =
        some (fullHeader (texts.map some ++ none :: rest).length ++
          (concatAll (blockList texts) ++ bannerOnly (texts.length + 1))))
    ∧ (extract_pdf_run (some (texts.map some ++ none :: rest))).stdout = "" := by
  have hfail := extractLoop_fail texts rest 0
  rw [Nat.zero_add] at hfail
  refine ⟨?_, ?_, ?_⟩
  · simp [extract_pdf_run, hfail]
  · simp [extract_file_content, extract_pdf_run, hfail, blockList, String.append_assoc]
  · simp [extract_pdf_run, hfail]

end PDFDump
